import Mathlib

/-!
Shallow embedding of the IRC transport/backend layer of `sopel/irc/backends.py`
(the `AsynchatBackend` class with its asyncio adapter methods, the two heartbeat
jobs `_send_ping` and `_check_timeout`, and the TLS hostname-verification logic
of `IRCProtocol.handle_connect`).

Conventions of the embedding:
* raw bytes are `List Nat` with each element `≤ 255`;
* decoded text is `List Nat` of Unicode code points (`10` = LF, `13` = CR);
* wall-clock instants (`datetime.datetime.utcnow()`) are rationals, passed to
  each operation as an explicit `now` argument;
* effects visible to the host (`bot.on_connect`, `bot.on_message`,
  `bot.on_close`, sending a PING, closing the transport) are collected in a
  returned `List Obs`;
* code that can raise returns `Option` (`none` = an uncaught exception).
-/

/-- Continuation-byte test for UTF-8: `0x80 ≤ b ≤ 0xBF`. -/
def isCont (b : Nat) : Bool := decide (0x80 ≤ b ∧ b ≤ 0xBF)

/-- Valid second byte of a three-byte UTF-8 sequence with lead byte `b`
(Python's strict UTF-8 codec: `E0` needs `A0..BF`, `ED` needs `80..9F`
to exclude overlongs and surrogates). -/
def utf8Second3 (b b1 : Nat) : Bool :=
  if b = 0xE0 then decide (0xA0 ≤ b1 ∧ b1 ≤ 0xBF)
  else if b = 0xED then decide (0x80 ≤ b1 ∧ b1 ≤ 0x9F)
  else isCont b1

/-- Valid second byte of a four-byte UTF-8 sequence with lead byte `b`
(`F0` needs `90..BF`, `F4` needs `80..8F`, bounding code points at `0x10FFFF`). -/
def utf8Second4 (b b1 : Nat) : Bool :=
  if b = 0xF0 then decide (0x90 ≤ b1 ∧ b1 ≤ 0xBF)
  else if b = 0xF4 then decide (0x80 ≤ b1 ∧ b1 ≤ 0x8F)
  else isCont b1

/-- Strict UTF-8 decoding of a byte list into code points, modelling Python's
`bytes.decode('utf-8')`: `none` models a `UnicodeDecodeError`. -/
def utf8Decode : List Nat → Option (List Nat)
  | [] => some []
  | b :: bs =>
    if b ≤ 0x7F then
      (utf8Decode bs).map (fun t => b :: t)
    else if 0xC2 ≤ b ∧ b ≤ 0xDF then
      match bs with
      | b1 :: bs2 =>
        if isCont b1 then
          (utf8Decode bs2).map (fun t => ((b - 0xC0) * 0x40 + (b1 - 0x80)) :: t)
        else none
      | [] => none
    else if 0xE0 ≤ b ∧ b ≤ 0xEF then
      match bs with
      | b1 :: b2 :: bs2 =>
        if utf8Second3 b b1 && isCont b2 then
          (utf8Decode bs2).map
            (fun t => ((b - 0xE0) * 0x1000 + (b1 - 0x80) * 0x40 + (b2 - 0x80)) :: t)
        else none
      | _ => none
    else if 0xF0 ≤ b ∧ b ≤ 0xF4 then
      match bs with
      | b1 :: b2 :: b3 :: bs2 =>
        if utf8Second4 b b1 && isCont b2 && isCont b3 then
          (utf8Decode bs2).map
            (fun t => ((b - 0xF0) * 0x40000 + (b1 - 0x80) * 0x1000
                        + (b2 - 0x80) * 0x40 + (b3 - 0x80)) :: t)
        else none
      | _ => none
    else none

/-- Decoding of one byte under Windows-1252, modelling Python's
`bytes.decode('cp1252')` per byte: bytes `0x00..0x7F` and `0xA0..0xFF` map to
themselves; `0x80..0x9F` map through the CP-1252 table, in which `0x81`,
`0x8D`, `0x8F`, `0x90` and `0x9D` are undefined (`none`). -/
def cp1252Byte (b : Nat) : Option Nat :=
  if b ≤ 0x7F then some b
  else if 0xA0 ≤ b ∧ b ≤ 0xFF then some b
  else match b with
    | 0x80 => some 0x20AC
    | 0x82 => some 0x201A
    | 0x83 => some 0x0192
    | 0x84 => some 0x201E
    | 0x85 => some 0x2026
    | 0x86 => some 0x2020
    | 0x87 => some 0x2021
    | 0x88 => some 0x02C6
    | 0x89 => some 0x2030
    | 0x8A => some 0x0160
    | 0x8B => some 0x2039
    | 0x8C => some 0x0152
    | 0x8E => some 0x017D
    | 0x91 => some 0x2018
    | 0x92 => some 0x2019
    | 0x93 => some 0x201C
    | 0x94 => some 0x201D
    | 0x95 => some 0x2022
    | 0x96 => some 0x2013
    | 0x97 => some 0x2014
    | 0x98 => some 0x02DC
    | 0x99 => some 0x2122
    | 0x9A => some 0x0161
    | 0x9B => some 0x203A
    | 0x9C => some 0x0153
    | 0x9E => some 0x017E
    | 0x9F => some 0x0178
    | _ => none

/-- Windows-1252 decoding of a byte list (`bytes.decode('cp1252')`). -/
def cp1252Decode (bs : List Nat) : Option (List Nat) :=
  bs.mapM cp1252Byte

/-- ISO-8859-1 (latin-1) decoding, modelling `bytes.decode('iso8859-1')`:
every byte value `0..255` maps to the code point of the same value, so the
decoder succeeds on every byte list (it is only `none` on values that are not
bytes at all). -/
def iso8859_1Decode (bs : List Nat) : Option (List Nat) :=
  if bs.all (fun b => b ≤ 0xFF) then some bs else none

/-- Host-visible effects of the backend: the four host notifications of the
spec plus the two transport-level actions the claims talk about.  `pingSent`
models `backend.send_ping(payload)` (declared in the abstract backend, outside
these sources) as an observable PING with its payload; `transportClosed`
models `self.transport.close()`. -/
inductive Obs where
  | onConnect : Obs
  | onMessage : List Nat → Obs
  | onClose : Obs
  | onError : Obs
  | pingSent : Option String → Obs
  | transportClosed : Obs
deriving DecidableEq, Repr

/-- State of one `AsynchatBackend` instance: the fields of `__init__` that the
claims depend on.  `transport` and `schedulerRunning` are `Bool` abstractions
of `self.transport is not None` and of whether `self.timeout_scheduler` is
started. -/
structure Backend where
  buffer : List Nat
  server_timeout : ℚ
  ping_interval : ℚ
  last_event_at : Option ℚ
  last_ping_at : Option ℚ
  host : Option String
  port : Option Nat
  transport : Bool
  connected : Bool
  schedulerRunning : Bool
deriving DecidableEq, Repr

/-- Constructor `AsynchatBackend.__init__(bot, server_timeout=None,
ping_interval=None)`: `self.server_timeout = server_timeout or 120` and
`self.ping_interval = ping_interval or (self.server_timeout * 0.45)`; Python's
`or` replaces both `None` and `0` by the default. -/
def mk_backend (server_timeout : Option ℚ) (ping_interval : Option ℚ) : Backend :=
  let st : ℚ := match server_timeout with
    | none => 120
    | some v => if v = 0 then 120 else v
  let pi : ℚ := match ping_interval with
    | none => st * 0.45
    | some v => if v = 0 then st * 0.45 else v
  { buffer := []
    server_timeout := st
    ping_interval := pi
    last_event_at := none
    last_ping_at := none
    host := none
    port := none
    transport := false
    connected := false
    schedulerRunning := false }

/-- Decode fallback chain of `collect_incoming_data`: try UTF-8, then CP-1252,
then ISO-8859-1; `none` is the final `return` that discards the chunk. -/
def decode_data (data : List Nat) : Option (List Nat) :=
  match utf8Decode data with
  | some t => some t
  | none =>
    match cp1252Decode data with
    | some t => some t
    | none =>
      match iso8859_1Decode data with
      | some t => some t
      | none => none

/-- Method `collect_incoming_data(self, data)`: decode `data` through the
fallback chain; on total failure discard the chunk (state unchanged), else
append the decoded text to `self.buffer` and set `self.last_event_at` to now.
(The `bot.log_raw` call is logging only and is not modelled.) -/
def collect_incoming_data (now : ℚ) (data : List Nat) (st : Backend) : Backend :=
  match decode_data data with
  | none => st
  | some text =>
      { st with buffer := st.buffer ++ text, last_event_at := some now }

/-- Method `found_terminator(self)`: take `line = self.buffer`, strip one
trailing CR if present, clear `self.buffer`, and hand `line` to
`self.bot.on_message`. -/
def found_terminator (st : Backend) : Backend × List Obs :=
  let line := st.buffer
  let line2 := if line.getLast? = some 13 then line.dropLast else line
  ({ st with buffer := [] }, [Obs.onMessage line2])

/-- Python's `s.split(sep, 1)` on a list of code points: the part strictly
before the first occurrence of `sep`, and the remainder after it (the whole
list and `[]` when `sep` does not occur; `data_received` only calls it when
`sep` occurs). -/
def split_once : List Nat → Nat → List Nat × List Nat
  | [], _ => ([], [])
  | c :: cs, sep =>
    if c = sep then ([], cs)
    else
      let p := split_once cs sep
      (c :: p.1, p.2)

/-- Loop body of `data_received`: `while '\n' in self.buffer: line, self.buffer
= self.buffer.split('\n', 1); self.found_terminator()`.  Note the faithful
quirk: the split-off `line` local is never used — `found_terminator` reads
`self.buffer`, which at that point holds the remainder after the newline.
The `fuel` argument only makes the recursion structural: each iteration of the
body ends with `found_terminator` clearing the buffer, so the loop exits after
at most one iteration and any positive fuel computes the full while loop
(`data_received_loop_succ` below proves the fuel is irrelevant). -/
def data_received_loop (fuel : Nat) (st : Backend) (acc : List Obs) :
    Backend × List Obs :=
  match fuel with
  | 0 => (st, acc)
  | fuel + 1 =>
    if 10 ∈ st.buffer then
      let p := split_once st.buffer 10
      let line := p.1
      let st1 := { st with buffer := p.2 }
      let q := found_terminator st1
      data_received_loop fuel q.1 (acc ++ q.2)
    else (st, acc)

/-- Fuel-irrelevance of `data_received_loop`: any positive fuel runs the while
loop to completion, because the loop body always leaves an empty buffer. -/
theorem data_received_loop_succ (fuel : Nat) (st : Backend) (acc : List Obs) :
    data_received_loop (fuel + 1) st acc
      = if 10 ∈ st.buffer then
          ({ st with buffer := [] },
           acc ++ (found_terminator { st with buffer := (split_once st.buffer 10).2 }).2)
        else (st, acc) := by
  cases fuel with
  | zero => simp [data_received_loop, found_terminator]
  | succ n => simp [data_received_loop, found_terminator]

/-- Method `data_received(self, data)`: feed the chunk through
`collect_incoming_data`, then repeatedly split the buffer at the first LF and
call `found_terminator`. -/
def data_received (now : ℚ) (data : List Nat) (st : Backend) : Backend × List Obs :=
  let st1 := collect_incoming_data now data st
  data_received_loop (st1.buffer.length + 1) st1 []

/-- Feeding a list of chunks to `data_received` one call at a time,
concatenating the host-visible outputs in order. -/
def feed_chunks (now : ℚ) (chunks : List (List Nat)) (st : Backend) :
    Backend × List Obs :=
  chunks.foldl
    (fun p chunk =>
      let r := data_received now chunk p.1
      (r.1, p.2 ++ r.2))
    (st, [])

/-- Modelled from the spec: `discard_buffers` is declared on
`AbstractIRCBackend` in `sopel/irc/abstract_backends.py`, which is not among
these sources; the spec's timeout path says to "discard any buffered partial
line", so the operation clears the incoming buffer. -/
def discard_buffers (st : Backend) : Backend :=
  { st with buffer := [] }

/-- Method `handle_close(self)`: stop the timeout scheduler; if a transport is
present, close it and set it to `None`; set `self._connected = False`; then
call `self.bot.on_close()` unconditionally. -/
def handle_close (st : Backend) : Backend × List Obs :=
  let st1 := { st with schedulerRunning := false }
  let r : Backend × List Obs :=
    if st1.transport then ({ st1 with transport := false }, [Obs.transportClosed])
    else (st1, [])
  ({ r.1 with connected := false }, r.2 ++ [Obs.onClose])

/-- Method `handle_connect(self)`: start the timeout scheduler and call
`self.bot.on_connect()`. -/
def handle_connect (st : Backend) : Backend × List Obs :=
  ({ st with schedulerRunning := true }, [Obs.onConnect])

/-- Method `connection_made(self, transport)`: store the transport and call
`handle_connect`. -/
def connection_made (st : Backend) : Backend × List Obs :=
  handle_connect { st with transport := true }

/-- Success path of `initiate_connect(self, host, port, source_address)`:
record host and port, let `loop.create_connection` build the transport (which
fires `connection_made` on the protocol, hence `handle_connect`), then store
`transport`/`protocol` and set `self._connected = True`. -/
def initiate_connect_success (host : String) (port : Nat) (st : Backend) :
    Backend × List Obs :=
  let st1 := { st with host := some host, port := some port }
  let r := connection_made st1
  ({ r.1 with transport := true, connected := true }, r.2)

/-- Job `_send_ping(backend)`: return immediately unless connected; build the
`events` list from `last_event_at` and `last_ping_at` (in that order, skipping
absent values); `need_ping` is `True` when the list is empty, else whether
`utcnow() - max(events)` exceeds `ping_interval`; when needed, send a PING
with `backend.host` as payload and set `last_ping_at` to now.  (The
`socket.error` catch around the send is logging only; the send itself is
modelled as always succeeding.) -/
def send_ping_job (now : ℚ) (st : Backend) : Backend × List Obs :=
  if st.connected then
    let events : List ℚ :=
      (match st.last_event_at with | some t => [t] | none => []) ++
      (match st.last_ping_at with | some t => [t] | none => [])
    let need_ping : Bool :=
      match events with
      | [] => true
      | e :: es => decide (now - es.foldl max e > st.ping_interval)
    if need_ping then
      ({ st with last_ping_at := some now }, [Obs.pingSent st.host])
    else (st, [])
  else (st, [])

/-- Spec phrase for claim C6: "the most recent of {last-event time, last-ping
time} (treating an absent value as never)". -/
def most_recent_event (st : Backend) : Option ℚ :=
  match st.last_event_at, st.last_ping_at with
  | none, none => none
  | some a, none => some a
  | none, some b => some b
  | some a, some b => some (max a b)

/-- Spec phrase for claim C6: a ping is due when both timestamps are absent,
or when the elapsed time since the most recent one exceeds the ping
interval. -/
def ping_needed (now : ℚ) (st : Backend) : Bool :=
  match most_recent_event st with
  | none => true
  | some m => decide (now - m > st.ping_interval)

/-- Job `_check_timeout(backend)`: return immediately unless connected; then
compute `utcnow() - backend.last_event_at` — which raises `TypeError`
(modelled by `none`) when `last_event_at` is `None` — and, when the elapsed
time exceeds `server_timeout`, discard the buffers and call
`handle_close`. -/
def check_timeout_job (now : ℚ) (st : Backend) : Option (Backend × List Obs) :=
  if st.connected then
    match st.last_event_at with
    | none => none
    | some t =>
      if now - t > st.server_timeout then
        some (handle_close (discard_buffers st))
      else some (st, [])
  else some (st, [])

/-- Outcome of `IRCProtocol.handle_connect` (the TLS hostname-verification
path): the connection proceeds (optionally recording the CNAME alias that
matched instead of the configured host), or the whole process is terminated
via `os.unlink(pid_file); os._exit(1)`, or the handshake failed with `OSError`
and `handle_close` ran. -/
inductive TLSOutcome where
  | proceed : Option String → TLSOutcome
  | exitProcess : TLSOutcome
  | closed : TLSOutcome
deriving DecidableEq, Repr

/-- Method `IRCProtocol.handle_connect(self)`: wrap the socket (an `OSError`
during the handshake leads to `handle_close`); when `verify_ssl`, run
`ssl.match_hostname` against the configured host; on a `CertificateError` try
each CNAME of the host in turn and accept the first that matches (with a
warning); if none matches, then — only when the settings have a
`pid_file_path` — unlink that file and `os._exit(1)`; otherwise control falls
through and the connection proceeds (`set_socket`, start scheduler,
`bot.on_connect`) exactly as in the verified case.  `cert_matches h` stands
for "`ssl.match_hostname(peer_certificate, h)` does not raise"; `cnames` is
the list returned by `get_cnames(host)`. -/
def tls_handle_connect (verify_ssl : Bool) (handshake_ok : Bool)
    (cert_matches : String → Bool) (host : String) (cnames : List String)
    (has_pid_file : Bool) : TLSOutcome :=
  if handshake_ok then
    if verify_ssl then
      if cert_matches host then TLSOutcome.proceed none
      else
        match cnames.find? cert_matches with
        | some alias_host => TLSOutcome.proceed (some alias_host)
        | none =>
          if has_pid_file then TLSOutcome.exitProcess
          else TLSOutcome.proceed none
    else TLSOutcome.proceed none
  else TLSOutcome.closed

/-- Backend freshly constructed with both timeout options left unspecified. -/
def fresh : Backend := mk_backend none none

/-- Backend in the state reached right after a successful connect to an
example server (connected, transport present, scheduler running, no traffic
yet). -/
def example_connected : Backend :=
  { fresh with
    host := some "irc.example.net"
    port := some 6667
    transport := true
    connected := true
    schedulerRunning := true }

/-- C1: the claim states chunk-boundary independence of `data_received`, but
the code violates it: feeding `b"A\n"` then `b"B\n"` delivers two empty lines,
while feeding `b"A\nB\n"` at once delivers the single line `"B\n"` — because
`found_terminator` reads `self.buffer` after `data_received` has already
replaced it with the remainder after the newline, discarding the split-off
line. -/
theorem c1_chunk_boundary_dependent :
    (feed_chunks 0 [[65, 10], [66, 10]] fresh).2
      ≠ (feed_chunks 0 [[65, 10, 66, 10]] fresh).2 := by decide

/-- C2: the claim states each terminated line is delivered as exactly the text
before the terminator (one trailing CR stripped), but on the chunk
`b"hi\r\n"` the code delivers the empty line instead of `"hi"`: the loop in
`data_received` moves the remainder after the newline into `self.buffer`, so
`found_terminator` never sees the text before the terminator. -/
theorem c2_terminated_line_misdelivered :
    (data_received 0 [104, 105, 13, 10] fresh).2 = [Obs.onMessage []]
    ∧ [Obs.onMessage ([] : List Nat)] ≠ [Obs.onMessage [104, 105]] := by decide

/-- C3: the claim states residual text after the last terminator stays in the
buffer, but on the chunk `b"A\nB"` the code delivers the residual `"B"` as a
complete line and leaves the buffer empty: `found_terminator` clears
`self.buffer` after it has been set to the remainder. -/
theorem c3_residual_not_buffered :
    (data_received 0 [65, 10, 66] fresh).1.buffer = []
    ∧ (data_received 0 [65, 10, 66] fresh).2 = [Obs.onMessage [66]] := by decide

/-- C4, counterexample: on a connected backend, two successive `handle_close`
calls fire `on_close` twice, not exactly once as the claim states (the
`bot.on_close()` call is unconditional). -/
theorem c4_double_on_close :
    ((handle_close example_connected).2
        ++ (handle_close (handle_close example_connected).1).2).count Obs.onClose = 2
    ∧ ((handle_close example_connected).2
        ++ (handle_close (handle_close example_connected).1).2).count Obs.onClose ≠ 1 := by
  decide

/-- C4 (amended): for every backend state, calling `handle_close` twice in
succession closes the transport at most once (only on the first call, and only
if one was present) and does not raise, but it notifies `on_close` once per
call — twice in total, not once. -/
theorem c4_close_twice (st : Backend) :
    (handle_close st).2 ++ (handle_close (handle_close st).1).2
      = (if st.transport then [Obs.transportClosed] else [])
        ++ [Obs.onClose, Obs.onClose] := by
  by_cases h : st.transport <;> simp [handle_close, h]

/-- C5, counterexample: after a successful connect on a fresh backend, no
last-event timestamp has been recorded — neither `initiate_connect` nor
`handle_connect` touches `last_event_at`, which stays `None` until the first
chunk of data arrives. -/
theorem c5_no_last_event_on_connect :
    ((initiate_connect_success "irc.libera.chat" 6667 fresh).1.last_event_at).isSome
      = false := rfl

/-- C5 (amended): on every successful connect the backend marks itself
connected, starts the heartbeat scheduler, stores the transport and signals
`on_connect` — but it does not record the current time as the last-event
timestamp, which keeps whatever value it had before the call. -/
theorem c5_connect_effects (host : String) (port : Nat) (st : Backend) :
    (initiate_connect_success host port st).1.connected = true
    ∧ (initiate_connect_success host port st).1.schedulerRunning = true
    ∧ (initiate_connect_success host port st).1.transport = true
    ∧ (initiate_connect_success host port st).2 = [Obs.onConnect]
    ∧ (initiate_connect_success host port st).1.last_event_at = st.last_event_at := by
  simp [initiate_connect_success, connection_made, handle_connect]

/-- C6: when not connected the send-ping job does nothing; when connected it
sends a PING carrying `backend.host` and stamps `last_ping_at := now` exactly
when a ping is needed — that is, when both timestamps are absent, or when the
elapsed time since the most recent of {last-event, last-ping} exceeds the
configured ping interval — and otherwise leaves the state untouched. -/
theorem c6_send_ping (st : Backend) (now : ℚ) :
    (st.connected = false → send_ping_job now st = (st, []))
    ∧ (st.connected = true →
        send_ping_job now st
          = if ping_needed now st
            then ({ st with last_ping_at := some now }, [Obs.pingSent st.host])
            else (st, [])) := by
  constructor
  · intro h; simp [send_ping_job, h]
  · intro h
    rcases hle : st.last_event_at with _ | a <;>
      rcases hlp : st.last_ping_at with _ | b <;>
        simp [send_ping_job, ping_needed, most_recent_event, h, hle, hlp]

/-- C6, witness: on the just-connected example backend (no traffic, no ping
yet) the job pings the configured host and records the time. -/
theorem c6_send_ping_witness :
    send_ping_job 0 example_connected
      = ({ example_connected with last_ping_at := some 0 },
         [Obs.pingSent (some "irc.example.net")]) := by
  have h := (c6_send_ping example_connected 0).2 rfl
  have hp : ping_needed 0 example_connected = true := rfl
  rw [h, hp]
  rfl

/-- C7, counterexample: on a connected backend that has not yet recorded a
last-event timestamp (the state every connection is in right after
`initiate_connect`, since connecting never sets `last_event_at`), the
check-timeout job raises a `TypeError` on `utcnow() - None` — so it does not
hold that the job never raises for any connected state. -/
theorem c7_raises_without_last_event :
    check_timeout_job 0 example_connected = none := rfl

/-- C7 (amended): for every connected backend whose last-event timestamp is
recorded, the check-timeout job does not raise; when the elapsed time exceeds
the configured server timeout it discards the buffered partial line and
force-closes via `handle_close` (delivering no message to the host), and
otherwise it leaves the state untouched. -/
theorem c7_check_timeout (st : Backend) (now t : ℚ)
    (hc : st.connected = true) (he : st.last_event_at = some t) :
    check_timeout_job now st
      = some (if now - t > st.server_timeout
              then handle_close (discard_buffers st)
              else (st, [])) := by
  simp only [check_timeout_job, hc, he, if_true]
  split_ifs <;> rfl

/-- C7, witness: a connected backend last active at time 0 is force-closed at
time 200 with its buffer discarded (its server timeout is the default 120). -/
theorem c7_check_timeout_witness :
    check_timeout_job 200 { example_connected with last_event_at := some 0 }
      = some (handle_close (discard_buffers
          { example_connected with last_event_at := some 0 })) := by
  have h := c7_check_timeout
    { example_connected with last_event_at := some 0 } 200 0 rfl rfl
  rw [h]
  have hgt : (200 : ℚ) - 0
      > ({ example_connected with last_event_at := some 0 } : Backend).server_timeout := by
    show (200 : ℚ) - 0 > 120
    norm_num
  rw [if_pos hgt]

/-- C8: a backend constructed without an explicit `server_timeout` gets the
default 120, and one constructed without an explicit `ping_interval` gets
0.45 times its effective server timeout — in particular 54 when both are left
unspecified. -/
theorem c8_timeout_defaults :
    (∀ pi, (mk_backend none pi).server_timeout = 120)
    ∧ (∀ so, (mk_backend so none).ping_interval
          = 0.45 * (mk_backend so none).server_timeout)
    ∧ (mk_backend none none).ping_interval = 54 := by
  refine ⟨fun pi => rfl, fun so => ?_, ?_⟩
  · rcases so with _ | v
    · show (120 : ℚ) * 0.45 = 0.45 * 120
      ring
    · show (if v = 0 then (120 : ℚ) else v) * 0.45
        = 0.45 * (if v = 0 then (120 : ℚ) else v)
      ring
  · show (120 : ℚ) * 0.45 = 54
    norm_num

/-- C9, counterexample: with verification enabled and a peer certificate
matching neither the configured host nor any CNAME alias, the connection
proceeds exactly as if verification had succeeded when no pid-file path is
configured, and when one is configured the whole process is terminated via
`os._exit(1)` — in neither case is a distinct certificate-mismatch error
surfaced to the host. -/
theorem c9_mismatch_not_surfaced :
    tls_handle_connect true true (fun _ => false) "irc.example.com" [] false
      = TLSOutcome.proceed none
    ∧ tls_handle_connect true true (fun _ => false) "irc.example.com" [] true
      = TLSOutcome.exitProcess := ⟨rfl, rfl⟩

/-- C9 (amended): with verification enabled, a successful handshake and a peer
certificate matching neither the host nor any of its CNAME aliases, the code
either terminates the process (when a pid-file path is configured) or lets the
connection proceed (when none is); the mismatch is never surfaced to the host
as a distinct error condition. -/
theorem c9_mismatch_behaviour (verify handshake : Bool)
    (cert_matches : String → Bool) (host : String) (cnames : List String)
    (has_pid_file : Bool)
    (hv : verify = true) (hh : handshake = true)
    (hhost : cert_matches host = false)
    (hcn : ∀ c ∈ cnames, cert_matches c = false) :
    tls_handle_connect verify handshake cert_matches host cnames has_pid_file
      = if has_pid_file then TLSOutcome.exitProcess
        else TLSOutcome.proceed none := by
  subst hv; subst hh
  have hfind : cnames.find? cert_matches = none :=
    List.find?_eq_none.mpr (fun c hc => by simp [hcn c hc])
  simp [tls_handle_connect, hhost, hfind]

/-- C9, witness: a concrete mismatching certificate with a pid file configured
terminates the process. -/
theorem c9_mismatch_witness :
    tls_handle_connect true true (fun _ => false) "irc.example.org"
        ["alias.example.org"] true
      = TLSOutcome.exitProcess := by
  have h := c9_mismatch_behaviour true true (fun _ => false) "irc.example.org"
    ["alias.example.org"] true rfl rfl rfl (fun c _ => rfl)
  simpa using h

/-- C10: for every chunk of actual bytes (values `≤ 255`), the decode fallback
chain succeeds — ISO-8859-1 maps every byte value, so the discard branch of
`collect_incoming_data` is unreachable — and the call appends the decoded text
to the buffer and stamps the last-event timestamp. -/
theorem c10_collect_never_discards (st : Backend) (now : ℚ) (data : List Nat)
    (h : ∀ b ∈ data, b ≤ 255) :
    (decode_data data).isSome = true
    ∧ collect_incoming_data now data st
        = { st with buffer := st.buffer ++ (decode_data data).getD [],
                    last_event_at := some now } := by
  have hiso : iso8859_1Decode data = some data := by
    have hall : data.all (fun b => decide (b ≤ 0xFF)) = true := by
      rw [List.all_eq_true]
      intro b hb
      exact decide_eq_true (h b hb)
    simp [iso8859_1Decode, hall]
  have hsome : (decode_data data).isSome = true := by
    rcases h1 : utf8Decode data with _ | t
    · rcases h2 : cp1252Decode data with _ | t2
      · simp [decode_data, h1, h2, hiso]
      · simp [decode_data, h1, h2]
    · simp [decode_data, h1]
  refine ⟨hsome, ?_⟩
  obtain ⟨text, htext⟩ := Option.isSome_iff_exists.mp hsome
  simp [collect_incoming_data, htext]

/-- C10, witness: the chunk `b"H\xe9"` is rejected by UTF-8 but decoded by
CP-1252, and lands appended in the buffer of a fresh backend. -/
theorem c10_collect_witness :
    (decode_data [72, 233]).isSome = true
    ∧ collect_incoming_data 0 [72, 233] fresh
        = { fresh with buffer := fresh.buffer ++ (decode_data [72, 233]).getD [],
                       last_event_at := some 0 } :=
  c10_collect_never_discards fresh 0 [72, 233] (by decide)
